import Mathlib

/-!
Verification development for the SmartEnergyMeter repository
(`src/get_api_data.py` and `src/get_weather_api_data.py`).

The two Python modules are shallowly embedded:

* JSON payloads (and the other dynamic Python values they are turned into)
  are modelled by the inductive type `PyVal`; Python's `in`, `[]`, `.get`
  and truthiness become executable functions on `PyVal` that return
  `Except String _` when the Python operation can raise
  (`KeyError`/`TypeError`/`AttributeError`/...).
* The single HTTP round trip made by each function is modelled by an
  `HttpOutcome` argument (the parsed body on success, or an HTTP-level /
  network-level failure); the weather client additionally receives the
  request parameters it would send, so the oracle is a function from the
  built parameter set to an outcome.
* `pandas` tables are modelled as lists of rows; a row whose primary
  timestamp column has been parsed with `pd.to_datetime` is a pair
  `(t, row)` with `t : Int` the epoch second of the timestamp.
  `sort_values` on the timestamp column is a stable ascending sort
  (`List.insertionSort`), `drop_duplicates(subset=key)` keeps the first
  occurrence of each key (`dedupByKey`).
* Timestamp strings are parsed by `parseTimestamp`, an executable
  ISO-8601 parser for the shapes the two APIs produce
  (`YYYY-MM-DDTHH:MM[:SS[.fff]][Z|+HH:MM|-HH:MM]`), using the standard
  civil-calendar day-number computation.
-/

/-- A dynamic Python/JSON value: `None`, booleans, numbers (modelled as `ℚ`),
strings, lists and string-keyed dicts. -/
inductive PyVal where
  | none
  | bool (b : Bool)
  | num (q : ℚ)
  | str (s : String)
  | list (xs : List PyVal)
  | dict (entries : List (String × PyVal))

/-- First value bound to `key` in an association list (Python dict lookup). -/
def lookupKey : List (String × PyVal) → String → Option PyVal
  | [], _ => Option.none
  | (k, v) :: rest, key => if k == key then some v else lookupKey rest key

/-- Python truthiness: `None`, `0`, `""`, `[]`, `{}` and `False` are falsy. -/
def PyVal.truthy : PyVal → Bool
  | .none => false
  | .bool b => b
  | .num q => q != 0
  | .str s => !s.isEmpty
  | .list xs => !xs.isEmpty
  | .dict es => !es.isEmpty

/-- Python subscript `v[k]` with a string key: dict lookup raising `KeyError`
when the key is absent; every non-dict value raises a `TypeError`. -/
def PyVal.getItem : PyVal → String → Except String PyVal
  | .dict es, k =>
    match lookupKey es k with
    | some v => .ok v
    | Option.none => .error ("KeyError: " ++ k)
  | .none, _ => .error "TypeError: NoneType object is not subscriptable"
  | _, _ => .error "TypeError: object is not subscriptable with a string key"

/-- Python subscript `v[i]` with an integer index (used for `homes[0]`). -/
def PyVal.getIndex : PyVal → Nat → Except String PyVal
  | .list xs, i =>
    match xs.get? i with
    | some v => .ok v
    | Option.none => .error "IndexError: list index out of range"
  | .dict _, _ => .error "KeyError: integer key not present"
  | _, _ => .error "TypeError: object is not subscriptable with an integer"

/-- Python membership test `k in v` for a string `k`: key membership for
dicts, substring test for strings, element equality for lists; `None` (and any
other non-container) raises a `TypeError`. -/
def PyVal.hasKey : PyVal → String → Except String Bool
  | .dict es, k => .ok (lookupKey es k).isSome
  | .str s, k => .ok (k.isEmpty || (s.splitOn k).length ≥ 2)
  | .list xs, k =>
    .ok (xs.any fun v => match v with | .str s => s == k | _ => false)
  | .none, _ => .error "TypeError: argument of type NoneType is not iterable"
  | _, _ => .error "TypeError: argument is not iterable"

/-- Python `v.get(k)` (dict method): the value, or `None` when absent; any
non-dict receiver raises an `AttributeError`. -/
def PyVal.dictGet : PyVal → String → Except String PyVal
  | .dict es, k => .ok ((lookupKey es k).getD .none)
  | _, _ => .error "AttributeError: object has no attribute get"

/-- Rows used to extend a Python list / build a `pd.DataFrame`: the payloads
at hand are JSON arrays, so any non-list value is treated as a `TypeError`
(the exotic Python iterables — strings, dicts — do not occur in these
payload positions). -/
def PyVal.asIterableRows : PyVal → Except String (List PyVal)
  | .list xs => .ok xs
  | _ => .error "TypeError: value is not a list of rows"

/-- Numeric view of a Python value (`bool` is an `int` in Python). -/
def PyVal.asNum : PyVal → Except String ℚ
  | .num q => .ok q
  | .bool b => .ok (if b then 1 else 0)
  | _ => .error "TypeError: value is not a number"

/-- String view of a Python value. -/
def PyVal.asStr : PyVal → Except String String
  | .str s => .ok s
  | _ => .error "TypeError: value is not a string"

/-! ### Timestamp parsing (`pd.to_datetime`) -/

/-- Value of a decimal digit character. -/
def digitVal (c : Char) : Option Nat :=
  if c.isDigit then some (c.toNat - 48) else Option.none

/-- Read exactly `n` decimal digits, accumulating into `acc`. -/
def readDigits : Nat → Nat → List Char → Option (Nat × List Char)
  | 0, acc, cs => some (acc, cs)
  | n + 1, acc, c :: cs => do readDigits n (acc * 10 + (← digitVal c)) cs
  | _ + 1, _, [] => Option.none

/-- Consume one expected character. -/
def expectChar (c : Char) : List Char → Option (List Char)
  | x :: xs => if x == c then some xs else Option.none
  | [] => Option.none

/-- Number of days from 1970-01-01 to the civil date `y-m-d` (proleptic
Gregorian calendar; the standard era/year-of-era computation). -/
def daysFromCivil (y m d : Int) : Int :=
  let y2 := if m ≤ 2 then y - 1 else y
  let era := (if 0 ≤ y2 then y2 else y2 - 399) / 400
  let yoe := y2 - era * 400
  let mp := (m + 9) % 12
  let doy := (153 * mp + 2) / 5 + d - 1
  let doe := yoe * 365 + yoe / 4 - yoe / 100 + doy
  era * 146097 + doe - 719468

/-- Parse an ISO-8601 timestamp of the shapes produced by the two APIs
(`2024-01-01T10:00`, `2024-01-01T10:00:00Z`,
`2024-01-01T10:00:00.000+01:00`, ...) into epoch seconds (UTC); a string
without a zone designator is interpreted as UTC, matching
`pd.to_datetime(..., utc=True)` on naive stamps. -/
def parseTimestamp (s : String) : Option Int := do
  let cs := s.toList
  let (y, cs) ← readDigits 4 0 cs
  let cs ← expectChar '-' cs
  let (mo, cs) ← readDigits 2 0 cs
  let cs ← expectChar '-' cs
  let (d, cs) ← readDigits 2 0 cs
  let cs ← expectChar 'T' cs
  let (h, cs) ← readDigits 2 0 cs
  let cs ← expectChar ':' cs
  let (mi, cs) ← readDigits 2 0 cs
  let (sec, cs) ←
    match cs with
    | ':' :: rest => readDigits 2 0 rest
    | _ => some (0, cs)
  let cs :=
    match cs with
    | '.' :: rest => rest.dropWhile (·.isDigit)
    | _ => cs
  let offMin : Int ←
    match cs with
    | [] => some 0
    | ['Z'] => some 0
    | '+' :: rest => do
      let (oh, r) ← readDigits 2 0 rest
      let r ← expectChar ':' r
      let (om, r) ← readDigits 2 0 r
      if r.isEmpty then some ((oh : Int) * 60 + om) else Option.none
    | '-' :: rest => do
      let (oh, r) ← readDigits 2 0 rest
      let r ← expectChar ':' r
      let (om, r) ← readDigits 2 0 r
      if r.isEmpty then some (-((oh : Int) * 60 + om)) else Option.none
    | _ => Option.none
  pure (daysFromCivil y mo d * 86400 + ((h : Int) * 3600 + (mi : Int) * 60 + sec) - offMin * 60)

/-! ### Shared table machinery (`pandas` on keyed rows) -/

/-- Ascending order on timestamp-keyed rows (`sort_values` on the parsed
timestamp column sorts by this key). -/
def keyLe (a b : Int × PyVal) : Prop := a.1 ≤ b.1

instance : DecidableRel keyLe := fun a b => inferInstanceAs (Decidable (a.1 ≤ b.1))

instance : IsTotal (Int × PyVal) keyLe := ⟨fun a b => Int.le_total a.1 b.1⟩

instance : IsTrans (Int × PyVal) keyLe := ⟨fun _ _ _ => Int.le_trans⟩

/-- `drop_duplicates(subset=key)`: keep the first row carrying each key. -/
def dedupByKey : List (Int × PyVal) → List Int → List (Int × PyVal)
  | [], _ => []
  | x :: rest, seen =>
    if x.1 ∈ seen then dedupByKey rest seen
    else x :: dedupByKey rest (x.1 :: seen)

/-! ### Energy client (`src/get_api_data.py`) -/

/-- Outcome of the single HTTP round trip a fetch function performs:
the parsed JSON body on success, or an HTTP-level error status
(`requests.exceptions.HTTPError`, carrying status and body text), or a
network-level failure (`requests.exceptions.RequestException`). -/
inductive HttpOutcome where
  | ok (body : PyVal)
  | httpError (status : Nat) (text : String)
  | netError (msg : String)

/-- `_make_graphql_request`: raises `ValueError` when `TIBBER_TOKEN` is unset
— the `token` match happens before the outcome of the network call is even
inspected — and otherwise returns the parsed body, or `None` after logging
when the request failed at the HTTP or network layer. -/
def makeGraphqlRequest (token : Option String) (out : HttpOutcome) : Except String PyVal :=
  match token with
  | Option.none => .error "ValueError: TIBBER_TOKEN environment variable not set."
  | some _ =>
    match out with
    | .ok body => .ok body
    | .httpError _ _ => .ok .none
    | .netError _ => .ok .none

/-- `get_home_id`: guard `data and 'data' in data and 'viewer' in data['data']
and 'homes' in data['data']['viewer']`, then return
`(homes[0]['id'], homes[0]['address']['address1'])` when the home list is
non-empty (the success `print` also reads `homes[0]['address']['city']`),
and `None` otherwise. -/
def get_home_id (token : Option String) (out : HttpOutcome) :
    Except String (Option (PyVal × PyVal)) := do
  let data ← makeGraphqlRequest token out
  let g ←
    if !data.truthy then pure false
    else do
      let h1 ← data.hasKey "data"
      if !h1 then pure false
      else do
        let d ← data.getItem "data"
        let h2 ← d.hasKey "viewer"
        if !h2 then pure false
        else do
          let v ← d.getItem "viewer"
          v.hasKey "homes"
  if g then do
    let homes ← (← (← data.getItem "data").getItem "viewer").getItem "homes"
    if homes.truthy then do
      let h0 ← homes.getIndex 0
      let addr ← h0.getItem "address"
      let a1 ← addr.getItem "address1"
      let _city ← addr.getItem "city"
      let hid ← h0.getItem "id"
      pure (some (hid, a1))
    else pure Option.none
  else pure Option.none

/-- The top-level sequence `my_home_id, my_home_address = get_home_id()`:
unpacking the returned pair succeeds, while unpacking the `None` returned in
the absent case raises a `TypeError`. -/
def mainHomeUnpack (token : Option String) (out : HttpOutcome) :
    Except String (PyVal × PyVal) := do
  match ← get_home_id token out with
  | some p => pure p
  | Option.none => .error "TypeError: cannot unpack non-iterable NoneType object"

/-- The guard line shared verbatim by `get_current_and_upcoming_prices` and
`get_historical_consumption`:
`data and 'data' in data and 'viewer' in data['data'] and
'home' in data['data']['viewer']['home']`.
Note that the final conjunct indexes `['home']` (which can raise `KeyError`)
and then tests for the key `'home'` inside the home object itself. -/
def viewerHomeGuard (data : PyVal) : Except String Bool :=
  if !data.truthy then pure false
  else do
    let h1 ← data.hasKey "data"
    if !h1 then pure false
    else do
      let d ← data.getItem "data"
      let h2 ← d.hasKey "viewer"
      if !h2 then pure false
      else do
        let v ← d.getItem "viewer"
        let home ← v.getItem "home"
        home.hasKey "home"

/-- Body of the guarded branch of `get_current_and_upcoming_prices`:
`price_info = data['data']['viewer']['home']['currentSubscription']['priceInfo']`,
then append `current` when truthy and extend with `today` / `tomorrow` when
truthy. -/
def extractPrices (data : PyVal) : Except String (List PyVal) := do
  let home ← (← (← data.getItem "data").getItem "viewer").getItem "home"
  let price_info ← (← home.getItem "currentSubscription").getItem "priceInfo"
  let current ← price_info.dictGet "current"
  let l1 := if current.truthy then [current] else []
  let today ← price_info.dictGet "today"
  let l2 ←
    if today.truthy then do pure (l1 ++ (← today.asIterableRows))
    else pure l1
  let tomorrow ← price_info.dictGet "tomorrow"
  if tomorrow.truthy then do pure (l2 ++ (← tomorrow.asIterableRows))
  else pure l2

/-- `df['startsAt'] = pd.to_datetime(df['startsAt'])` on one row: the
`startsAt` column must hold a parseable timestamp string; the parsed value
replaces the column, and the row is keyed by it. -/
def parsePriceRow (row : PyVal) : Except String (Int × PyVal) :=
  match row with
  | .dict es => do
    let sAt ←
      match lookupKey es "startsAt" with
      | some v => Except.ok v
      | Option.none => Except.error "KeyError: startsAt"
    let s ← sAt.asStr
    match parseTimestamp s with
    | some t =>
      .ok (t, .dict (es.map fun kv =>
        if kv.1 == "startsAt" then (kv.1, PyVal.num (t : ℚ)) else kv))
    | Option.none => .error "ValueError: could not parse startsAt"
  | _ => .error "TypeError: price entry is not a dict"

/-- The non-empty branch of the price table post-processing:
`df['startsAt'] = pd.to_datetime(df['startsAt'])` followed by
`df.drop_duplicates(subset='startsAt').sort_values('startsAt').reset_index(drop=True)`;
an empty frame is returned untouched. -/
def pricesPipeline (prices : List PyVal) : Except String (List (Int × PyVal)) :=
  if prices.isEmpty then pure []
  else do
    let keyed ← prices.mapM parsePriceRow
    pure (List.insertionSort keyLe (dedupByKey keyed []))

/-- `get_current_and_upcoming_prices(home_id)`. -/
def get_current_and_upcoming_prices (token : Option String) (out : HttpOutcome) :
    Except String (List (Int × PyVal)) := do
  let data ← makeGraphqlRequest token out
  let g ← viewerHomeGuard data
  let prices ← if g then extractPrices data else pure []
  pricesPipeline prices

/-- Body of the guarded branch of `get_historical_consumption`:
`if home.get('consumption') and home['consumption'].get('nodes'):
consumption_data = home['consumption']['nodes']`. -/
def extractConsumptionNodes (data : PyVal) : Except String (List PyVal) := do
  let home ← (← (← data.getItem "data").getItem "viewer").getItem "home"
  let consOpt ← home.dictGet "consumption"
  if consOpt.truthy then do
    let nodesOpt ← (← home.getItem "consumption").dictGet "nodes"
    if nodesOpt.truthy then do
      (← (← home.getItem "consumption").getItem "nodes").asIterableRows
    else pure []
  else pure []

/-- Per-row consumption post-processing: parse `from` and `to` with
`pd.to_datetime`, add `totalPrice = unitPrice + unitPriceVAT` (exact `ℚ`
addition — the reconstruction introduces no rounding), key by the parsed
`from`. -/
def parseConsumptionRow (row : PyVal) : Except String (Int × PyVal) :=
  match row with
  | .dict es => do
    let fromV ←
      match lookupKey es "from" with
      | some v => Except.ok v
      | Option.none => Except.error "KeyError: from"
    let toV ←
      match lookupKey es "to" with
      | some v => Except.ok v
      | Option.none => Except.error "KeyError: to"
    let fs ← fromV.asStr
    let ts ← toV.asStr
    let fT ←
      match parseTimestamp fs with
      | some t => Except.ok t
      | Option.none => Except.error "ValueError: could not parse from"
    let tT ←
      match parseTimestamp ts with
      | some t => Except.ok t
      | Option.none => Except.error "ValueError: could not parse to"
    let up ← (←
      match lookupKey es "unitPrice" with
      | some v => Except.ok v
      | Option.none => Except.error "KeyError: unitPrice").asNum
    let uv ← (←
      match lookupKey es "unitPriceVAT" with
      | some v => Except.ok v
      | Option.none => Except.error "KeyError: unitPriceVAT").asNum
    let es2 := es.map fun kv =>
      if kv.1 == "from" then (kv.1, PyVal.num (fT : ℚ))
      else if kv.1 == "to" then (kv.1, PyVal.num (tT : ℚ))
      else kv
    .ok (fT, .dict (es2 ++ [("totalPrice", PyVal.num (up + uv))]))
  | _ => .error "TypeError: consumption node is not a dict"

/-- The non-empty branch of the consumption post-processing: parse the two
timestamp columns, reconstruct `totalPrice`, `sort_values('from')` and
re-index; an empty frame is returned untouched. -/
def consumptionPipeline (nodes : List PyVal) : Except String (List (Int × PyVal)) :=
  if nodes.isEmpty then pure []
  else do
    let keyed ← nodes.mapM parseConsumptionRow
    pure (List.insertionSort keyLe keyed)

/-- `get_historical_consumption(home_id, num_hours=720)` (the hour count only
parameterizes the request). -/
def get_historical_consumption (token : Option String) (num_hours : Nat)
    (out : HttpOutcome) : Except String (List (Int × PyVal)) := do
  let _ := num_hours
  let data ← makeGraphqlRequest token out
  let g ← viewerHomeGuard data
  let nodes ← if g then extractConsumptionNodes data else pure []
  consumptionPipeline nodes

/-- `get_live_measurement(home_id)`: returns whatever the single-shot request
produced, with no further normalization. -/
def get_live_measurement (token : Option String) (out : HttpOutcome) :
    Except String PyVal :=
  makeGraphqlRequest token out

/-! ### Weather client (`src/get_weather_api_data.py`) -/

/-- The query parameters `get_hourly_forecast` sends to the Open-Meteo
endpoint. -/
structure WeatherParams where
  latitude : ℚ
  longitude : ℚ
  hourly : String
  temperature_unit : String
  wind_speed_unit : String
  precipitation_unit : String
  timezone : String
  forecast_hours : Nat
  past_hours : Nat

/-- Parameter construction in `get_hourly_forecast`: fixed coordinates and
timezone for The Hague, the fixed 12-variable hourly list, and units chosen
uniformly by the `WEATHER_UNITS` environment toggle. -/
def buildWeatherParams (units : Option String) (num_hours past_hours : Nat) :
    WeatherParams :=
  ⟨52.0766, 4.2986,
    "temperature_2m,relative_humidity_2m,precipitation,rain,snowfall,weather_code,wind_speed_10m,wind_direction_10m,surface_pressure,cloud_cover,is_day,shortwave_radiation",
    if units == some "imperial" then "fahrenheit" else "celsius",
    if units == some "imperial" then "mph" else "ms",
    if units == some "imperial" then "inch" else "mm",
    "Europe/Amsterdam", num_hours, past_hours⟩

/-- The WMO weather-code lookup table from `get_hourly_forecast`. -/
def wmoDescriptions : List (ℚ × String) :=
  [(0, "Clear sky"), (1, "Mostly clear"), (2, "Partly cloudy"), (3, "Overcast"),
   (45, "Fog"), (48, "Depositing rime fog"),
   (51, "Drizzle: Light"), (53, "Drizzle: Moderate"), (55, "Drizzle: Dense"),
   (56, "Freezing Drizzle: Light"), (57, "Freezing Drizzle: Dense"),
   (61, "Rain: Slight"), (63, "Rain: Moderate"), (65, "Rain: Heavy"),
   (66, "Freezing Rain: Light"), (67, "Freezing Rain: Heavy"),
   (71, "Snow fall: Slight"), (73, "Snow fall: Moderate"), (75, "Snow fall: Heavy"),
   (77, "Snow grains"),
   (80, "Rain showers: Slight"), (81, "Rain showers: Moderate"),
   (82, "Rain showers: Violent"),
   (85, "Snow showers: Slight"), (86, "Snow showers: Heavy"),
   (95, "Thunderstorm: Slight or moderate"), (96, "Thunderstorm with slight hail"),
   (99, "Thunderstorm with heavy hail")]

/-- Lookup in the WMO table by numeric equality. -/
def lookupNum : List (ℚ × String) → ℚ → Option String
  | [], _ => Option.none
  | (k, v) :: rest, q => if k == q then some v else lookupNum rest q

/-- `df['weather_code'].map({...})` on one cell: a mapped code yields its
description, an unmapped or non-numeric code yields a missing value (`NaN`),
never an error. -/
def mapWeatherCode (v : PyVal) : PyVal :=
  match v with
  | .num q =>
    match lookupNum wmoDescriptions q with
    | some s => .str s
    | Option.none => .none
  | _ => .none

/-- The wind-direction lambda of `get_hourly_forecast`, verbatim:
`'N' if (d >= 337.5 or d < 22.5) else 'NE' if (d >= 22.5 and d < 67.5) else
...` with `'NW'` as the final `else`. -/
def wind_direction_cardinal (d : ℚ) : String :=
  if 337.5 ≤ d ∨ d < 22.5 then "N"
  else if 22.5 ≤ d ∧ d < 67.5 then "NE"
  else if 67.5 ≤ d ∧ d < 112.5 then "E"
  else if 112.5 ≤ d ∧ d < 157.5 then "SE"
  else if 157.5 ≤ d ∧ d < 202.5 then "S"
  else if 202.5 ≤ d ∧ d < 247.5 then "SW"
  else if 247.5 ≤ d ∧ d < 292.5 then "W"
  else "NW"

/-- A column of `pd.DataFrame(data['hourly'])`: each hourly variable must map
to an array; anything else fails DataFrame construction. -/
def asColumn : PyVal → Except String (List PyVal)
  | .list xs => .ok xs
  | _ => .error "ValueError: DataFrame columns must be equal-length arrays"

/-- All columns of the hourly block. -/
def asColumns : List (String × PyVal) → Except String (List (String × List PyVal))
  | [] => .ok []
  | (k, v) :: rest => do pure ((k, ← asColumn v) :: (← asColumns rest))

/-- Every column has length `L` (ragged columns fail DataFrame
construction). -/
def sameLengths (L : Nat) : List (String × List PyVal) → Bool
  | [] => true
  | (_, c) :: rest => c.length == L && sameLengths L rest

/-- Common column length of the hourly block (0 when there are no
columns). -/
def firstColLength : List (String × List PyVal) → Nat
  | [] => 0
  | c :: _ => c.2.length

/-- Row `i` of the column-aligned hourly block. -/
def rowAt (cols : List (String × List PyVal)) (i : Nat) : PyVal :=
  .dict (cols.map fun kc => (kc.1, kc.2.getD i .none))

/-- All `L` index-aligned rows of the hourly block. -/
def colsToRows (cols : List (String × List PyVal)) (L : Nat) : List PyVal :=
  (List.range L).map (rowAt cols)

/-- Per-row weather post-processing: rename `time` to `timestamp`, parse it
with `pd.to_datetime(..., utc=True)` (raising `ValueError` on an unparseable
stamp and `KeyError` when the column is missing), derive
`weather_description` from `weather_code` and `wind_direction_cardinal` from
`wind_direction_10m` (a non-numeric bearing raises the lambda's
`TypeError`), and key the row by the parsed timestamp. -/
def processWeatherRow (row : PyVal) : Except String (Int × PyVal) :=
  match row with
  | .dict es0 => do
    let es := es0.map fun kv => (if kv.1 == "time" then "timestamp" else kv.1, kv.2)
    let tsV ←
      match lookupKey es "timestamp" with
      | some v => Except.ok v
      | Option.none => Except.error "KeyError: timestamp"
    let s ← tsV.asStr
    let t ←
      match parseTimestamp s with
      | some t => Except.ok t
      | Option.none => Except.error "ValueError: could not parse timestamp"
    let wcV ←
      match lookupKey es "weather_code" with
      | some v => Except.ok v
      | Option.none => Except.error "KeyError: weather_code"
    let wdV ←
      match lookupKey es "wind_direction_10m" with
      | some v => Except.ok v
      | Option.none => Except.error "KeyError: wind_direction_10m"
    let wd ← wdV.asNum
    let es2 := es.map fun kv =>
      if kv.1 == "timestamp" then (kv.1, PyVal.num (t : ℚ)) else kv
    .ok (t, .dict (es2 ++
      [("weather_description", mapWeatherCode wcV),
       ("wind_direction_cardinal", .str (wind_direction_cardinal wd))]))
  | _ => .error "TypeError: row is not a dict"

/-- The non-empty branch of the weather post-processing, ending in
`sort_values('timestamp').reset_index(drop=True)`; an empty frame is
returned untouched. -/
def weatherPipeline (rows : List PyVal) : Except String (List (Int × PyVal)) :=
  if rows.isEmpty then pure []
  else do
    let keyed ← rows.mapM processWeatherRow
    pure (List.insertionSort keyLe keyed)

/-- `get_hourly_forecast(num_hours=72, past_hours=0)`: one GET request; HTTP
and network failures are caught and yield an empty table, a missing or falsy
`hourly` block yields an empty table, and the hourly columns are flattened
into rows and post-processed (exceptions raised by the post-processing —
e.g. `pd.to_datetime` parse failures — are not caught by the
`requests`-only handlers and propagate). -/
def get_hourly_forecast (units : Option String) (fetch : WeatherParams → HttpOutcome)
    (num_hours past_hours : Nat) : Except String (List (Int × PyVal)) :=
  match fetch (buildWeatherParams units num_hours past_hours) with
  | .httpError _ _ => .ok []
  | .netError _ => .ok []
  | .ok data =>
    if !data.truthy then pure []
    else do
      let hasHourly ← data.hasKey "hourly"
      if !hasHourly then pure []
      else do
        let hourly ← data.getItem "hourly"
        match hourly with
        | .dict colEntries => do
          let cols ← asColumns colEntries
          if !sameLengths (firstColLength cols) cols then
            .error "ValueError: All arrays must be of the same length"
          else weatherPipeline (colsToRows cols (firstColLength cols))
        | _ => .error "ValueError: DataFrame construction requires a mapping of columns"

/-- `get_current_weather()`: call `get_hourly_forecast(num_hours=1,
past_hours=0)` and return its first row as a one-row table (`iloc[0]`
transposed back), or an empty table when the forecast came back empty. -/
def get_current_weather (units : Option String)
    (fetch : WeatherParams → HttpOutcome) : Except String (List (Int × PyVal)) := do
  let hourly_df ← get_hourly_forecast units fetch 1 0
  match hourly_df with
  | [] => pure []
  | r :: _ => pure [r]

/-! ### Concrete fixtures -/

/-- The price entry `{total: 1.0, startsAt: "2024-01-01T10:00:00Z", level: "NORMAL"}`. -/
def priceEntry1 : PyVal :=
  .dict [("total", .num 1), ("startsAt", .str "2024-01-01T10:00:00Z"), ("level", .str "NORMAL")]

/-- A price-info response with `current = priceEntry1`, `today = [priceEntry1]`,
`tomorrow = []`. -/
def priceResp1 : PyVal :=
  .dict [("data", .dict [("viewer", .dict [("home", .dict [("currentSubscription",
    .dict [("priceInfo", .dict [("current", priceEntry1),
      ("today", PyVal.list [priceEntry1]), ("tomorrow", PyVal.list [])])])])])])]

/-- A malformed response: `data.viewer` present but with no `home` key. -/
def malformedResp : PyVal := .dict [("data", .dict [("viewer", .dict [])])]

/-- A response for an account with no active subscription
(`currentSubscription` null). -/
def noSubResp : PyVal :=
  .dict [("data", .dict [("viewer", .dict [("home",
    .dict [("currentSubscription", PyVal.none)])])])]

/-- A today-entry sharing `priceEntry1`'s timestamp but with different fields. -/
def priceEntryDup : PyVal :=
  .dict [("total", .num 2), ("startsAt", .str "2024-01-01T10:00:00Z"), ("level", .str "CHEAP")]

/-- A later price entry. -/
def priceEntry2 : PyVal :=
  .dict [("total", .num 3), ("startsAt", .str "2024-01-01T11:00:00Z"), ("level", .str "NORMAL")]

/-- A price-info response in which `current` and `today` contain the same
timestamp with different fields. -/
def priceResp6 : PyVal :=
  .dict [("data", .dict [("viewer", .dict [("home", .dict [("currentSubscription",
    .dict [("priceInfo", .dict [("current", priceEntry1),
      ("today", PyVal.list [priceEntryDup, priceEntry2]), ("tomorrow", PyVal.list [])])])])])])]

/-- A well-formed hourly consumption node (10:00–11:00). -/
def consNode1 : PyVal :=
  .dict [("from", .str "2024-01-01T10:00:00Z"), ("to", .str "2024-01-01T11:00:00Z"),
    ("consumption", .num 2), ("unitPrice", .num (1/4)), ("unitPriceVAT", .num (21/400)),
    ("totalCost", .num (121/200)), ("currency", .str "EUR")]

/-- A well-formed hourly consumption node (11:00–12:00). -/
def consNode2 : PyVal :=
  .dict [("from", .str "2024-01-01T11:00:00Z"), ("to", .str "2024-01-01T12:00:00Z"),
    ("consumption", .num 1), ("unitPrice", .num (3/10)), ("unitPriceVAT", .num (63/1000)),
    ("totalCost", .num (363/1000)), ("currency", .str "EUR")]

/-- A well-formed consumption response carrying exactly one node. -/
def consResp1 : PyVal :=
  .dict [("data", .dict [("viewer", .dict [("home", .dict [("consumption",
    .dict [("nodes", PyVal.list [consNode1])])])])])]

/-- Fields of one home in the home-listing response. -/
structure HomeData where
  id : String
  address1 : String
  postalCode : String
  city : String
  country : String

/-- One home object of the home-listing response. -/
def mkHome (h : HomeData) : PyVal :=
  .dict [("id", .str h.id), ("address", .dict [("address1", .str h.address1),
    ("postalCode", .str h.postalCode), ("city", .str h.city), ("country", .str h.country)])]

/-- A well-formed home-listing response with the given home list. -/
def mkHomesResp (homes : List PyVal) : PyVal :=
  .dict [("data", .dict [("viewer", .dict [("homes", .list homes)])])]

/-- A mocked weather oracle returning a single forecast hour. -/
def fetchW : WeatherParams → HttpOutcome := fun _ =>
  .ok (.dict [("hourly", .dict [("time", PyVal.list [.str "2024-01-01T10:00"]),
    ("weather_code", PyVal.list [.num 0]), ("wind_direction_10m", PyVal.list [.num 10])])])

/-- The processed forecast row `fetchW` yields, with the two derived cells left
as unevaluated applications (they involve non-integer rational comparisons). -/
def rWstuck : Int × PyVal :=
  ((1704103200 : Int), .dict [("timestamp", .num ((1704103200 : Int) : ℚ)),
    ("weather_code", .num 0), ("wind_direction_10m", .num 10),
    ("weather_description", mapWeatherCode (.num 0)),
    ("wind_direction_cardinal", .str (wind_direction_cardinal 10))])

/-- The processed forecast row `fetchW` yields, fully evaluated. -/
def rW : Int × PyVal :=
  ((1704103200 : Int), .dict [("timestamp", .num 1704103200),
    ("weather_code", .num 0), ("wind_direction_10m", .num 10),
    ("weather_description", .str "Clear sky"),
    ("wind_direction_cardinal", .str "N")])

/-- A mocked weather oracle returning two forecast hours out of order. -/
def fetchW2 : WeatherParams → HttpOutcome := fun _ =>
  .ok (.dict [("hourly", .dict [("time",
    PyVal.list [.str "2024-01-01T11:00", .str "2024-01-01T10:00"]),
    ("weather_code", PyVal.list [.num 1, .num 2]),
    ("wind_direction_10m", PyVal.list [.num 100, .num 250])])])

/-- The table `fetchW2` yields, sorted, with derived cells unevaluated. -/
def wRows2stuck : List (Int × PyVal) :=
  [((1704103200 : Int), .dict [("timestamp", .num ((1704103200 : Int) : ℚ)),
     ("weather_code", .num 2), ("wind_direction_10m", .num 250),
     ("weather_description", mapWeatherCode (.num 2)),
     ("wind_direction_cardinal", .str (wind_direction_cardinal 250))]),
   ((1704106800 : Int), .dict [("timestamp", .num ((1704106800 : Int) : ℚ)),
     ("weather_code", .num 1), ("wind_direction_10m", .num 100),
     ("weather_description", mapWeatherCode (.num 1)),
     ("wind_direction_cardinal", .str (wind_direction_cardinal 100))])]

/-- The table `fetchW2` yields, sorted ascending by timestamp, fully
evaluated. -/
def wRows2 : List (Int × PyVal) :=
  [((1704103200 : Int), .dict [("timestamp", .num 1704103200),
     ("weather_code", .num 2), ("wind_direction_10m", .num 250),
     ("weather_description", .str "Partly cloudy"),
     ("wind_direction_cardinal", .str "W")]),
   ((1704106800 : Int), .dict [("timestamp", .num 1704106800),
     ("weather_code", .num 1), ("wind_direction_10m", .num 100),
     ("weather_description", .str "Mostly clear"),
     ("wind_direction_cardinal", .str "E")])]

/-! ### Helper lemmas -/

/-- Inversion for a successful `Except` bind. -/
theorem bind_ok {α β : Type} {x : Except String α} {f : α → Except String β}
    {b : β} (h : x >>= f = .ok b) : ∃ a, x = .ok a ∧ f a = .ok b := by
  cases x with
  | error e => exact Except.noConfusion (show Except.error e = Except.ok b from h)
  | ok a => exact ⟨a, rfl, h⟩

/-- A successful `pure` in `Except` pins down the value. -/
theorem pure_ok {α : Type} {a b : α} (h : (pure a : Except String α) = .ok b) :
    a = b := by
  exact (Except.ok.injEq a b).mp h

/-- The keyed sort used by every pipeline produces a `keyLe`-sorted list. -/
theorem insertionSort_keyLe_sorted (l : List (Int × PyVal)) :
    List.Pairwise keyLe (List.insertionSort keyLe l) :=
  List.sorted_insertionSort keyLe l

/-- A successful price pipeline yields a sorted table. -/
theorem pricesPipeline_sorted {prices : List PyVal} {rows : List (Int × PyVal)}
    (h : pricesPipeline prices = .ok rows) : List.Pairwise keyLe rows := by
  unfold pricesPipeline at h
  split at h
  · rw [← pure_ok h]; exact List.Pairwise.nil
  · obtain ⟨keyed, _, hp⟩ := bind_ok h
    rw [← pure_ok hp]
    exact insertionSort_keyLe_sorted _

/-- A successful consumption pipeline yields a sorted table. -/
theorem consumptionPipeline_sorted {nodes : List PyVal} {rows : List (Int × PyVal)}
    (h : consumptionPipeline nodes = .ok rows) : List.Pairwise keyLe rows := by
  unfold consumptionPipeline at h
  split at h
  · rw [← pure_ok h]; exact List.Pairwise.nil
  · obtain ⟨keyed, _, hp⟩ := bind_ok h
    rw [← pure_ok hp]
    exact insertionSort_keyLe_sorted _

/-- A successful weather pipeline yields a sorted table. -/
theorem weatherPipeline_sorted {rows0 : List PyVal} {rows : List (Int × PyVal)}
    (h : weatherPipeline rows0 = .ok rows) : List.Pairwise keyLe rows := by
  unfold weatherPipeline at h
  split at h
  · rw [← pure_ok h]; exact List.Pairwise.nil
  · obtain ⟨keyed, _, hp⟩ := bind_ok h
    rw [← pure_ok hp]
    exact insertionSort_keyLe_sorted _

/-- Every table `get_hourly_forecast` returns is sorted ascending by
timestamp. -/
theorem get_hourly_forecast_sorted {units : Option String}
    {fetch : WeatherParams → HttpOutcome} {n p : Nat} {rows : List (Int × PyVal)}
    (h : get_hourly_forecast units fetch n p = .ok rows) :
    List.Pairwise keyLe rows := by
  unfold get_hourly_forecast at h
  split at h
  · rw [← pure_ok h]; exact List.Pairwise.nil
  · rw [← pure_ok h]; exact List.Pairwise.nil
  · split at h
    · rw [← pure_ok h]; exact List.Pairwise.nil
    · obtain ⟨hasH, _, h⟩ := bind_ok h
      split at h
      · rw [← pure_ok h]; exact List.Pairwise.nil
      · obtain ⟨hourly, _, h⟩ := bind_ok h
        split at h
        · obtain ⟨cols, _, h⟩ := bind_ok h
          split at h
          · exact Except.noConfusion (show Except.error _ = Except.ok rows from h)
          · exact weatherPipeline_sorted h
        · exact Except.noConfusion (show Except.error _ = Except.ok rows from h)

/-! ### Claim theorems -/

/-- C1: for the price-info response whose `current` block is
`{total: 1.0, startsAt: "2024-01-01T10:00:00Z", level: "NORMAL"}`, whose
`today` block is `[that entry]` and whose `tomorrow` block is `[]`,
`get_current_and_upcoming_prices` returns an empty table — not the 1-row
table the claim states: the guard tests `'home' in
data['data']['viewer']['home']`, which is false for this well-formed
response, so the extraction branch never runs. -/
theorem prices_single_entry_scenario_yields_empty_table :
    get_current_and_upcoming_prices (some "tok") (.ok priceResp1) = .ok [] := rfl

/-- C2: a response whose account has no active subscription
(`currentSubscription` null) does come back as an empty table, but a
malformed response in which `viewer` lacks the `home` key makes
`get_current_and_upcoming_prices` raise `KeyError: home` (the guard indexes
`data['data']['viewer']['home']` before any membership check on `viewer`),
contradicting the claim that malformed responses never raise. -/
theorem prices_malformed_response_raises_keyerror :
    get_current_and_upcoming_prices (some "tok") (.ok noSubResp) = .ok [] ∧
    get_current_and_upcoming_prices (some "tok") (.ok malformedResp) =
      .error "KeyError: home" :=
  ⟨rfl, rfl⟩

/-- C3: for a well-formed consumption response carrying one node,
`get_historical_consumption` returns an empty table — not one row per node:
the same mistyped guard (`'home' in data['data']['viewer']['home']`) is
false for well-formed responses. The post-processing the claim describes
does behave as claimed when given the nodes directly: one row per node,
`totalPrice` the exact sum `unitPrice + unitPriceVAT`, sorted ascending by
`from` (shown here on two out-of-order nodes); and an empty node list yields
an empty table. -/
theorem consumption_wellformed_node_yields_empty_table :
    get_historical_consumption (some "tok") 720 (.ok consResp1) = .ok [] ∧
    consumptionPipeline [consNode2, consNode1] =
      .ok [((1704103200 : Int), .dict [("from", .num 1704103200), ("to", .num 1704106800),
              ("consumption", .num 2), ("unitPrice", .num (1/4)),
              ("unitPriceVAT", .num (21/400)), ("totalCost", .num (121/200)),
              ("currency", .str "EUR"), ("totalPrice", .num (1/4 + 21/400))]),
           ((1704106800 : Int), .dict [("from", .num 1704106800), ("to", .num 1704110400),
              ("consumption", .num 1), ("unitPrice", .num (3/10)),
              ("unitPriceVAT", .num (63/1000)), ("totalCost", .num (363/1000)),
              ("currency", .str "EUR"), ("totalPrice", .num (3/10 + 63/1000))])] ∧
    consumptionPipeline [] = .ok [] :=
  ⟨rfl, rfl, rfl⟩

/-- C4: when `get_home_id` finds no home (zero homes, missing keys, or a
failed request) it returns the single value `None`, a different shape from
the success pair, and the module's own top-level unpacking
`my_home_id, my_home_address = get_home_id()` raises a `TypeError` in each
absent case instead of halting gracefully (while unpacking the success pair
works). -/
theorem home_id_absent_is_none_and_unpack_raises :
    get_home_id (some "tok") (.ok (mkHomesResp [])) = .ok Option.none ∧
    mainHomeUnpack (some "tok") (.ok (mkHomesResp [])) =
      .error "TypeError: cannot unpack non-iterable NoneType object" ∧
    get_home_id (some "tok") (.ok (.dict [("errors", .list [.str "oops"])])) = .ok Option.none ∧
    mainHomeUnpack (some "tok") (.ok (.dict [("errors", .list [.str "oops"])])) =
      .error "TypeError: cannot unpack non-iterable NoneType object" ∧
    get_home_id (some "tok") (.httpError 401 "Unauthorized") = .ok Option.none ∧
    mainHomeUnpack (some "tok") (.httpError 401 "Unauthorized") =
      .error "TypeError: cannot unpack non-iterable NoneType object" ∧
    mainHomeUnpack (some "tok") (.ok (mkHomesResp [mkHome ⟨"h1", "Main St", "1", "X", "NL"⟩])) =
      .ok (.str "h1", .str "Main St") :=
  ⟨rfl, rfl, rfl, rfl, rfl, rfl, rfl⟩

/-- C5: for every valid home-listing response with at least one home,
`get_home_id` returns the pair of the first home's id and its first address
line; for zero homes it returns the absent result; and on the mocked
response `{homes: [{id: "h1", address: {address1: "Main St", city: "X",
postalCode: "1", country: "NL"}}]}` it returns `("h1", "Main St")`. -/
theorem home_id_returns_first_home :
    (∀ (tok : String) (h : HomeData) (rest : List HomeData),
      get_home_id (some tok) (.ok (mkHomesResp (List.map mkHome (h :: rest)))) =
        .ok (some (.str h.id, .str h.address1))) ∧
    (∀ tok : String, get_home_id (some tok) (.ok (mkHomesResp [])) = .ok Option.none) ∧
    get_home_id (some "t") (.ok (mkHomesResp [mkHome ⟨"h1", "Main St", "1", "X", "NL"⟩])) =
      .ok (some (.str "h1", .str "Main St")) :=
  ⟨fun _ _ _ => rfl, fun _ => rfl, rfl⟩

/-- C6: when `current` and `today` contain the same timestamp, the returned
table does not retain the `current` entry's fields — it is empty, because the
mistyped guard short-circuits the extraction. The duplicate-removal and sort
step that does exist in the function (`drop_duplicates` before
`sort_values`) behaves exactly as the claim describes when given the
concatenated entries directly: first occurrence (the `current` entry,
`total = 1`) wins over the `today` duplicate (`total = 2`), and the result
is sorted. -/
theorem prices_shared_timestamp_not_retained :
    get_current_and_upcoming_prices (some "tok") (.ok priceResp6) = .ok [] ∧
    pricesPipeline [priceEntry1, priceEntryDup, priceEntry2] =
      .ok [((1704103200 : Int), .dict [("total", .num 1), ("startsAt", .num 1704103200),
              ("level", .str "NORMAL")]),
           ((1704106800 : Int), .dict [("total", .num 3), ("startsAt", .num 1704106800),
              ("level", .str "NORMAL")])] :=
  ⟨rfl, rfl⟩

/-- C7: every energy-client operation raises the configuration `ValueError`
exactly when the bearer token is unset — and does so whatever the network
outcome would have been, i.e. before the network call is consulted — while
with a token set no configuration error is possible; and on an HTTP-level
error status (e.g. 401) or a network-level failure every fetch function in
both clients returns its absent/empty result rather than propagating an
exception. -/
theorem token_check_and_nonthrowing_error_contract :
    (∀ out : HttpOutcome, makeGraphqlRequest Option.none out =
      .error "ValueError: TIBBER_TOKEN environment variable not set.") ∧
    (∀ (t : String) (out : HttpOutcome), ∃ v, makeGraphqlRequest (some t) out = .ok v) ∧
    (∀ (t : String) (c : Nat) (b : String) (n : Nat),
      get_home_id (some t) (.httpError c b) = .ok Option.none ∧
      get_current_and_upcoming_prices (some t) (.httpError c b) = .ok [] ∧
      get_historical_consumption (some t) n (.httpError c b) = .ok [] ∧
      get_live_measurement (some t) (.httpError c b) = .ok .none) ∧
    (∀ (t : String) (m : String) (n : Nat),
      get_home_id (some t) (.netError m) = .ok Option.none ∧
      get_current_and_upcoming_prices (some t) (.netError m) = .ok [] ∧
      get_historical_consumption (some t) n (.netError m) = .ok [] ∧
      get_live_measurement (some t) (.netError m) = .ok .none) ∧
    (∀ (units : Option String) (c : Nat) (b : String) (n p : Nat),
      get_hourly_forecast units (fun _ => .httpError c b) n p = .ok [] ∧
      get_current_weather units (fun _ => .httpError c b) = .ok []) ∧
    (∀ (units : Option String) (m : String) (n p : Nat),
      get_hourly_forecast units (fun _ => .netError m) n p = .ok [] ∧
      get_current_weather units (fun _ => .netError m) = .ok []) :=
  ⟨fun _ => rfl,
   fun _ out => by cases out <;> exact ⟨_, rfl⟩,
   fun _ _ _ _ => ⟨rfl, rfl, rfl, rfl⟩,
   fun _ _ _ => ⟨rfl, rfl, rfl, rfl⟩,
   fun _ _ _ _ _ => ⟨rfl, rfl⟩,
   fun _ _ _ _ => ⟨rfl, rfl⟩⟩

/-- N bucket of the wind-direction table. -/
theorem windBucketN (d : ℚ) (h : (337.5 ≤ d ∧ d < 360) ∨ (0 ≤ d ∧ d < 22.5)) :
    wind_direction_cardinal d = "N" := by
  unfold wind_direction_cardinal
  rcases h with ⟨h1, _⟩ | ⟨_, h2⟩
  · rw [if_pos (Or.inl h1)]
  · rw [if_pos (Or.inr h2)]

/-- NE bucket of the wind-direction table. -/
theorem windBucketNE (d : ℚ) (h : 22.5 ≤ d ∧ d < 67.5) :
    wind_direction_cardinal d = "NE" := by
  unfold wind_direction_cardinal
  rw [if_neg (by rintro (hc | hc) <;> linarith [h.1, h.2]), if_pos h]

/-- E bucket of the wind-direction table. -/
theorem windBucketE (d : ℚ) (h : 67.5 ≤ d ∧ d < 112.5) :
    wind_direction_cardinal d = "E" := by
  unfold wind_direction_cardinal
  rw [if_neg (by rintro (hc | hc) <;> linarith [h.1, h.2]),
    if_neg (by rintro ⟨hc1, hc2⟩ ; linarith [h.1]), if_pos h]

/-- SE bucket of the wind-direction table. -/
theorem windBucketSE (d : ℚ) (h : 112.5 ≤ d ∧ d < 157.5) :
    wind_direction_cardinal d = "SE" := by
  unfold wind_direction_cardinal
  rw [if_neg (by rintro (hc | hc) <;> linarith [h.1, h.2]),
    if_neg (by rintro ⟨hc1, hc2⟩ ; linarith [h.1]),
    if_neg (by rintro ⟨hc1, hc2⟩ ; linarith [h.1]), if_pos h]

/-- S bucket of the wind-direction table. -/
theorem windBucketS (d : ℚ) (h : 157.5 ≤ d ∧ d < 202.5) :
    wind_direction_cardinal d = "S" := by
  unfold wind_direction_cardinal
  rw [if_neg (by rintro (hc | hc) <;> linarith [h.1, h.2]),
    if_neg (by rintro ⟨hc1, hc2⟩ ; linarith [h.1]),
    if_neg (by rintro ⟨hc1, hc2⟩ ; linarith [h.1]),
    if_neg (by rintro ⟨hc1, hc2⟩ ; linarith [h.1]), if_pos h]

/-- SW bucket of the wind-direction table. -/
theorem windBucketSW (d : ℚ) (h : 202.5 ≤ d ∧ d < 247.5) :
    wind_direction_cardinal d = "SW" := by
  unfold wind_direction_cardinal
  rw [if_neg (by rintro (hc | hc) <;> linarith [h.1, h.2]),
    if_neg (by rintro ⟨hc1, hc2⟩ ; linarith [h.1]),
    if_neg (by rintro ⟨hc1, hc2⟩ ; linarith [h.1]),
    if_neg (by rintro ⟨hc1, hc2⟩ ; linarith [h.1]),
    if_neg (by rintro ⟨hc1, hc2⟩ ; linarith [h.1]), if_pos h]

/-- W bucket of the wind-direction table. -/
theorem windBucketW (d : ℚ) (h : 247.5 ≤ d ∧ d < 292.5) :
    wind_direction_cardinal d = "W" := by
  unfold wind_direction_cardinal
  rw [if_neg (by rintro (hc | hc) <;> linarith [h.1, h.2]),
    if_neg (by rintro ⟨hc1, hc2⟩ ; linarith [h.1]),
    if_neg (by rintro ⟨hc1, hc2⟩ ; linarith [h.1]),
    if_neg (by rintro ⟨hc1, hc2⟩ ; linarith [h.1]),
    if_neg (by rintro ⟨hc1, hc2⟩ ; linarith [h.1]),
    if_neg (by rintro ⟨hc1, hc2⟩ ; linarith [h.1]), if_pos h]

/-- NW bucket of the wind-direction table. -/
theorem windBucketNW (d : ℚ) (h : 292.5 ≤ d ∧ d < 337.5) :
    wind_direction_cardinal d = "NW" := by
  unfold wind_direction_cardinal
  rw [if_neg (by rintro (hc | hc) <;> linarith [h.1, h.2]),
    if_neg (by rintro ⟨hc1, hc2⟩ ; linarith [h.1]),
    if_neg (by rintro ⟨hc1, hc2⟩ ; linarith [h.1]),
    if_neg (by rintro ⟨hc1, hc2⟩ ; linarith [h.1]),
    if_neg (by rintro ⟨hc1, hc2⟩ ; linarith [h.1]),
    if_neg (by rintro ⟨hc1, hc2⟩ ; linarith [h.1]),
    if_neg (by rintro ⟨hc1, hc2⟩ ; linarith [h.2])]

/-- C8: for every wind bearing the derived `wind_direction_cardinal` label
matches the 8-bucket boundary table with half-open intervals
(`[337.5, 360) ∪ [0, 22.5) → N`, `[22.5, 67.5) → NE`, ..., `[292.5, 337.5)
→ NW`); in particular 10 yields N, 200 yields S, 337.5 yields N and 22.5
yields NE. -/
theorem wind_direction_cardinal_buckets :
    (∀ d : ℚ,
      ((337.5 ≤ d ∧ d < 360) ∨ (0 ≤ d ∧ d < 22.5) → wind_direction_cardinal d = "N") ∧
      (22.5 ≤ d ∧ d < 67.5 → wind_direction_cardinal d = "NE") ∧
      (67.5 ≤ d ∧ d < 112.5 → wind_direction_cardinal d = "E") ∧
      (112.5 ≤ d ∧ d < 157.5 → wind_direction_cardinal d = "SE") ∧
      (157.5 ≤ d ∧ d < 202.5 → wind_direction_cardinal d = "S") ∧
      (202.5 ≤ d ∧ d < 247.5 → wind_direction_cardinal d = "SW") ∧
      (247.5 ≤ d ∧ d < 292.5 → wind_direction_cardinal d = "W") ∧
      (292.5 ≤ d ∧ d < 337.5 → wind_direction_cardinal d = "NW")) ∧
    wind_direction_cardinal 10 = "N" ∧
    wind_direction_cardinal 200 = "S" ∧
    wind_direction_cardinal 337.5 = "N" ∧
    wind_direction_cardinal 22.5 = "NE" :=
  ⟨fun d => ⟨windBucketN d, windBucketNE d, windBucketE d, windBucketSE d,
    windBucketS d, windBucketSW d, windBucketW d, windBucketNW d⟩,
   by norm_num [wind_direction_cardinal],
   by norm_num [wind_direction_cardinal],
   by norm_num [wind_direction_cardinal],
   by norm_num [wind_direction_cardinal]⟩

/-- Witness for C8 at the concrete bearing 300. -/
theorem wind_direction_cardinal_buckets_witness :
    wind_direction_cardinal 300 = "NW" :=
  (wind_direction_cardinal_buckets.1 300).2.2.2.2.2.2.2 ⟨by norm_num, by norm_num⟩

/-- C9: `get_current_weather` returns exactly the first (earliest-timestamp)
row of the table `get_hourly_forecast(1, 0)` yields on the same mocked
response, preserving all derived columns (the row is returned whole), and
returns an empty table when the forecast comes back empty. -/
theorem current_weather_is_first_forecast_row :
    ∀ (units : Option String) (fetch : WeatherParams → HttpOutcome),
      (∀ (r : Int × PyVal) (rest : List (Int × PyVal)),
        get_hourly_forecast units fetch 1 0 = .ok (r :: rest) →
        get_current_weather units fetch = .ok [r] ∧ ∀ x ∈ rest, keyLe r x) ∧
      (get_hourly_forecast units fetch 1 0 = .ok [] →
        get_current_weather units fetch = .ok []) := by
  intro units fetch
  constructor
  · intro r rest h
    constructor
    · unfold get_current_weather
      rw [h]
      rfl
    · exact (List.pairwise_cons.mp (get_hourly_forecast_sorted h)).1
  · intro h
    unfold get_current_weather
    rw [h]
    rfl

/-- The mocked single-hour forecast evaluates to the one processed row. -/
theorem fetchW_eval : get_hourly_forecast Option.none fetchW 1 0 = .ok [rW] := by
  have h0 : get_hourly_forecast Option.none fetchW 1 0 = .ok [rWstuck] := rfl
  rw [h0]
  norm_num [rWstuck, rW, mapWeatherCode, lookupNum, wmoDescriptions, wind_direction_cardinal]

/-- Witness for C9 on the mocked single-hour forecast. -/
theorem current_weather_is_first_forecast_row_witness :
    get_current_weather Option.none fetchW = .ok [rW] :=
  ((current_weather_is_first_forecast_row Option.none fetchW).1 rW [] fetchW_eval).1

/-- C10: every table returned by the price, historical-consumption and
hourly-forecast operations is sorted ascending by its primary timestamp
field (`startsAt`, `from` and `timestamp` respectively, each parsed into the
row key). -/
theorem fetch_tables_sorted_by_timestamp :
    (∀ (tok : Option String) (out : HttpOutcome) (rows : List (Int × PyVal)),
      get_current_and_upcoming_prices tok out = .ok rows → List.Pairwise keyLe rows) ∧
    (∀ (tok : Option String) (n : Nat) (out : HttpOutcome) (rows : List (Int × PyVal)),
      get_historical_consumption tok n out = .ok rows → List.Pairwise keyLe rows) ∧
    (∀ (units : Option String) (fetch : WeatherParams → HttpOutcome) (n p : Nat)
      (rows : List (Int × PyVal)),
      get_hourly_forecast units fetch n p = .ok rows → List.Pairwise keyLe rows) := by
  refine ⟨?_, ?_, ?_⟩
  · intro tok out rows h
    unfold get_current_and_upcoming_prices at h
    obtain ⟨data, _, h⟩ := bind_ok h
    obtain ⟨g, _, h⟩ := bind_ok h
    simp only [] at h
    split at h <;>
      (obtain ⟨prices, _, h⟩ := bind_ok h; exact pricesPipeline_sorted h)
  · intro tok n out rows h
    unfold get_historical_consumption at h
    obtain ⟨data, _, h⟩ := bind_ok h
    obtain ⟨g, _, h⟩ := bind_ok h
    simp only [] at h
    split at h <;>
      (obtain ⟨nodes, _, h⟩ := bind_ok h; exact consumptionPipeline_sorted h)
  · intro units fetch n p rows h
    exact get_hourly_forecast_sorted h

/-- The mocked two-hour out-of-order forecast evaluates to the sorted
two-row table. -/
theorem fetchW2_eval : get_hourly_forecast Option.none fetchW2 2 0 = .ok wRows2 := by
  have h0 : get_hourly_forecast Option.none fetchW2 2 0 = .ok wRows2stuck := rfl
  rw [h0]
  norm_num [wRows2stuck, wRows2, mapWeatherCode, lookupNum, wmoDescriptions, wind_direction_cardinal]

/-- Witness for C10: an HTTP-failed price fetch yields the (sorted) empty
table, and the mocked out-of-order two-hour forecast yields a table the
theorem proves sorted. -/
theorem fetch_tables_sorted_by_timestamp_witness :
    List.Pairwise keyLe ([] : List (Int × PyVal)) ∧ List.Pairwise keyLe wRows2 :=
  ⟨fetch_tables_sorted_by_timestamp.1 (some "t") (.httpError 500 "err") [] rfl,
   fetch_tables_sorted_by_timestamp.2.2 Option.none fetchW2 2 0 wRows2 fetchW2_eval⟩
